import Mathlib

/-!
Verification of the connection-request router
(src/connections/implementation/service_controller_router.cc).

The router validates every inbound operation against the state of the
calling client session, then executes the state-mutating body of the
operation on a single serial task stream.  We embed each router operation
as a pair of functions: the `sync` phase that the source runs on the
calling thread before enqueueing, and the `body` that the serializer runs
later.  External collaborators (the client session, the service
controller, the v3 device handle) are visible to the router only through
narrow contracts; their state-relevant parts are modelled from the
specification, as noted on each definition.

Service-controller calls made by a body are recorded as an ordered trace
of `SCCall` values, and the statuses those calls return are supplied by a
`ServiceController` oracle, so that theorems quantify over every possible
transport-controller behaviour.
-/

namespace Nearby

/-- Modelled from the spec: the `Status` result-code taxonomy of section 7
(the header defining the enum is not part of the sources).  The named
constructors are the codes the router itself produces; the remaining
constructors stand for statuses a Transport Controller call can return,
which the router passes through unchanged. -/
inductive Status where
  | kSuccess
  | kError
  | kOutOfOrderApiCall
  | kAlreadyAdvertising
  | kAlreadyDiscovering
  | kAlreadyConnectedToEndpoint
  | kEndpointUnknown
  | kConnectionRejected
  | kNotConnectedToEndpoint
  | kBluetoothError
  | kTimeout
  | kUnknown
deriving DecidableEq, Repr

/-- Modelled from the spec: a status is Ok exactly when it is the success
code (`Status::Ok` of the external header). -/
def Status.Ok (s : Status) : Bool := s == Status.kSuccess

/-- Modelled from the spec: the transport media
(`location::nearby::proto::connections::Medium`, external proto enum).
`MDNS` and `AWDL` are media that `GetMediumQuality` does not list
explicitly, so they exercise its default branch. -/
inductive Medium where
  | UNKNOWN_MEDIUM
  | MDNS
  | BLUETOOTH
  | WIFI_HOTSPOT
  | BLE
  | WIFI_LAN
  | WIFI_AWARE
  | NFC
  | WIFI_DIRECT
  | WEB_RTC
  | BLE_L2CAP
  | USB
  | AWDL
deriving DecidableEq, Repr

/-- Modelled from the spec: the qualitative bandwidth tier `v3::Quality`
(external header), one of unknown, low, medium, high. -/
inductive Quality where
  | kUnknown
  | kLow
  | kMedium
  | kHigh
deriving DecidableEq, Repr

/-- `ServiceControllerRouter::GetMediumQuality`
(service_controller_router.cc lines 61 to 81), translated switch case by
switch case, including the default branch. -/
def GetMediumQuality : Medium → Quality
  | Medium.USB => Quality.kUnknown
  | Medium.UNKNOWN_MEDIUM => Quality.kUnknown
  | Medium.BLE => Quality.kLow
  | Medium.NFC => Quality.kLow
  | Medium.BLUETOOTH => Quality.kMedium
  | Medium.BLE_L2CAP => Quality.kMedium
  | Medium.WIFI_HOTSPOT => Quality.kHigh
  | Medium.WIFI_LAN => Quality.kHigh
  | Medium.WIFI_AWARE => Quality.kHigh
  | Medium.WIFI_DIRECT => Quality.kHigh
  | Medium.WEB_RTC => Quality.kHigh
  | _ => Quality.kUnknown

/-- Lookup of the cancellation-flag entry registered for an endpoint id in
the flag store (first matching key). -/
def findFlag : List (String × Bool) → String → Option Bool
  | [], _ => none
  | p :: rest, e => if p.1 == e then some p.2 else findFlag rest e

/-- Raising the cancellation flag registered for one endpoint id: every
entry for that id becomes raised, other entries are untouched. -/
def raiseFlag (l : List (String × Bool)) (e : String) : List (String × Bool) :=
  l.map fun p => if p.1 == e then (p.1, true) else p

/-- Raising every registered cancellation flag. -/
def raiseAllFlags (l : List (String × Bool)) : List (String × Bool) :=
  l.map fun p => (p.1, true)

/-- Modelled from the spec: the per-application client session state of
section 3 (`ClientProxy`, external collaborator): advertising and
discovery flags, the endpoint ids currently in the pending respectively
connected relation, the endpoint ids the local side has already answered,
and the cancellation-flag store keyed by endpoint id (second component:
whether the flag has been raised). -/
structure ClientProxy where
  advertising : Bool
  discovering : Bool
  pendingEndpoints : List String
  connectedEndpoints : List String
  responded : List String
  cancelFlags : List (String × Bool)
deriving DecidableEq, Repr

/-- Modelled from the spec: `ClientProxy::IsAdvertising` of the session
contract in section 6. -/
def ClientProxy.IsAdvertising (c : ClientProxy) : Bool := c.advertising

/-- Modelled from the spec: `ClientProxy::IsDiscovering` of the session
contract in section 6. -/
def ClientProxy.IsDiscovering (c : ClientProxy) : Bool := c.discovering

/-- Modelled from the spec: `ClientProxy::IsConnectedToEndpoint`. -/
def ClientProxy.IsConnectedToEndpoint (c : ClientProxy) (endpoint_id : String) : Bool :=
  c.connectedEndpoints.contains endpoint_id

/-- Modelled from the spec: `ClientProxy::HasPendingConnectionToEndpoint`. -/
def ClientProxy.HasPendingConnectionToEndpoint (c : ClientProxy) (endpoint_id : String) : Bool :=
  c.pendingEndpoints.contains endpoint_id

/-- Modelled from the spec: `ClientProxy::HasLocalEndpointResponded`. -/
def ClientProxy.HasLocalEndpointResponded (c : ClientProxy) (endpoint_id : String) : Bool :=
  c.responded.contains endpoint_id

/-- Whether a cancellation flag has been registered for the endpoint. -/
def ClientProxy.HasCancellationFlag (c : ClientProxy) (endpoint_id : String) : Bool :=
  (findFlag c.cancelFlags endpoint_id).isSome

/-- Whether the cancellation flag registered for the endpoint has been
raised; false when no flag is registered.  Modelled from the spec:
cancellation is level-triggered and, once raised, observable by every
subsequent operation referencing the endpoint (invariant I3). -/
def ClientProxy.IsEndpointCancelled (c : ClientProxy) (endpoint_id : String) : Bool :=
  (findFlag c.cancelFlags endpoint_id).getD false

/-- Modelled from the spec: `ClientProxy::AddCancellationFlag` registers a
cancellation flag for the endpoint id; an already registered flag is kept
as it is. -/
def ClientProxy.AddCancellationFlag (c : ClientProxy) (endpoint_id : String) : ClientProxy :=
  if (findFlag c.cancelFlags endpoint_id).isSome then c
  else { c with cancelFlags := (endpoint_id, false) :: c.cancelFlags }

/-- Modelled from the spec: `ClientProxy::CancelEndpoint` raises the
cancellation flag registered for the endpoint id (section 5 fast path:
raising a cancellation flag; a flag that was never registered is not
created). -/
def ClientProxy.CancelEndpoint (c : ClientProxy) (endpoint_id : String) : ClientProxy :=
  { c with cancelFlags := raiseFlag c.cancelFlags endpoint_id }

/-- Modelled from the spec: `ClientProxy::CancelAllEndpoints` raises every
registered cancellation flag of the session. -/
def ClientProxy.CancelAllEndpoints (c : ClientProxy) : ClientProxy :=
  { c with cancelFlags := raiseAllFlags c.cancelFlags }

/-- Modelled from the spec: `ClientProxy::GetPendingConnectedEndpoints`
returns the endpoint ids currently in the pending relation. -/
def ClientProxy.GetPendingConnectedEndpoints (c : ClientProxy) : List String :=
  c.pendingEndpoints

/-- Modelled from the spec: `ClientProxy::GetConnectedEndpoints` returns
the endpoint ids currently in the connected relation. -/
def ClientProxy.GetConnectedEndpoints (c : ClientProxy) : List String :=
  c.connectedEndpoints

/-- Modelled from the spec: `ClientProxy::Reset` clears every session
flag back to the empty initial state (section 3 lifecycle). -/
def ClientProxy.Reset (_c : ClientProxy) : ClientProxy :=
  { advertising := false
    discovering := false
    pendingEndpoints := []
    connectedEndpoints := []
    responded := []
    cancelFlags := [] }

/-- One call made by a queued body to the Transport Controller
(`ServiceController` contract of section 6), recorded in the order the
body issues the calls. -/
inductive SCCall where
  | startAdvertising
  | stopAdvertising
  | startDiscovery
  | stopDiscovery
  | injectEndpoint (service_id : String)
  | requestConnection (endpoint_id : String)
  | acceptConnection (endpoint_id : String)
  | rejectConnection (endpoint_id : String)
  | initiateBandwidthUpgrade (endpoint_id : String)
  | sendPayload (endpoint_ids : List String) (payload : Nat)
  | cancelPayload (payload_id : Nat)
  | disconnectFromEndpoint (endpoint_id : String)
  | shutdownBwuManagerExecutors
deriving DecidableEq, Repr

/-- Modelled from the spec: a payload is a move-only unit identified by a
numeric id unique within the session (section 3); only the id is relevant
to the router. -/
abbrev Payload := Nat

/-- Oracle for the statuses the Transport Controller returns on its
status-returning operations; the remaining controller operations return
void in the source and are recorded in the call trace only. -/
structure ServiceController where
  requestConnection : String → Status
  acceptConnection : String → Status
  rejectConnection : String → Status
  cancelPayload : Nat → Status

/-- Result of running one queued operation body: the client session state
it leaves behind, the status it passes to the result callback, and the
ordered trace of Transport Controller calls it made. -/
structure RouterResult where
  client : ClientProxy
  status : Status
  calls : List SCCall
deriving DecidableEq, Repr

/-- One routed router operation, split exactly as the source splits it:
`sync` is what the operation runs synchronously on the calling thread
before handing the body to the serializer, and `body` is the closure the
serializer later executes against the session state current at that
time. -/
structure RoutedOp where
  sync : ClientProxy → ClientProxy
  body : ClientProxy → RouterResult

/-- Running a routed operation with nothing interleaved between the
enqueue and the execution of its body. -/
def RoutedOp.run (op : RoutedOp) (c : ClientProxy) : RouterResult :=
  op.body (op.sync c)

/-- Length of a MAC address (service_controller_router.cc line 39). -/
def kMacAddressLength : Nat := 6

/-- Length used for an endpoint ID (service_controller_router.cc line 43). -/
def kEndpointIdLength : Nat := 4

/-- Maximum length for information describing an endpoint
(service_controller_router.cc line 48). -/
def kMaxEndpointInfoLength : Nat := 131

/-- `ClientHasConnectionToAtLeastOneEndpoint`
(service_controller_router.cc lines 50 to 58): the loop with early return
becomes an existential scan of the target list. -/
def ClientHasConnectionToAtLeastOneEndpoint
    (client : ClientProxy) (remote_endpoint_ids : List String) : Bool :=
  remote_endpoint_ids.any fun endpoint_id => client.IsConnectedToEndpoint endpoint_id

/-- `OutOfBandConnectionMetadata` as used by `InjectEndpoint`: medium,
peer hardware address bytes, endpoint id, endpoint display info bytes. -/
structure OutOfBandConnectionMetadata where
  medium : Medium
  remote_bluetooth_mac_address : List Nat
  endpoint_id : String
  endpoint_info : List Nat
deriving DecidableEq, Repr

/-- `ServiceControllerRouter::StopAdvertising`
(service_controller_router.cc lines 115 to 123): nothing synchronous; the
body stops advertising only when the session is advertising and answers
success unconditionally. -/
def StopAdvertising : RoutedOp :=
  { sync := fun client => client
    body := fun client =>
      if client.IsAdvertising then ⟨client, Status.kSuccess, [SCCall.stopAdvertising]⟩
      else ⟨client, Status.kSuccess, []⟩ }

/-- `ServiceControllerRouter::StopDiscovery`
(service_controller_router.cc lines 143 to 151). -/
def StopDiscovery : RoutedOp :=
  { sync := fun client => client
    body := fun client =>
      if client.IsDiscovering then ⟨client, Status.kSuccess, [SCCall.stopDiscovery]⟩
      else ⟨client, Status.kSuccess, []⟩ }

/-- `ServiceControllerRouter::InjectEndpoint`
(service_controller_router.cc lines 153 to 188): the four early-return
validations of the queued body, in source order, then delegation and
unconditional success. -/
def InjectEndpoint (service_id : String) (metadata : OutOfBandConnectionMetadata) : RoutedOp :=
  { sync := fun client => client
    body := fun client =>
      if metadata.medium ≠ Medium.BLUETOOTH ∨
          metadata.remote_bluetooth_mac_address.length ≠ kMacAddressLength then
        ⟨client, Status.kError, []⟩
      else if metadata.endpoint_id.length ≠ kEndpointIdLength then
        ⟨client, Status.kError, []⟩
      else if metadata.endpoint_info = [] ∨
          metadata.endpoint_info.length > kMaxEndpointInfoLength then
        ⟨client, Status.kError, []⟩
      else if !client.IsDiscovering then
        ⟨client, Status.kOutOfOrderApiCall, []⟩
      else
        ⟨client, Status.kSuccess, [SCCall.injectEndpoint service_id]⟩ }

/-- `ServiceControllerRouter::RequestConnection`
(service_controller_router.cc lines 190 to 216): the calling thread
registers a cancellation flag before enqueueing; the body guards against
an existing pending or connected relation, delegates, and on a
non-success status cancels the endpoint before reporting the status. -/
def RequestConnection (sc : ServiceController) (endpoint_id : String) : RoutedOp :=
  { sync := fun client => client.AddCancellationFlag endpoint_id
    body := fun client =>
      if client.HasPendingConnectionToEndpoint endpoint_id ||
          client.IsConnectedToEndpoint endpoint_id then
        ⟨client, Status.kAlreadyConnectedToEndpoint, []⟩
      else
        let status := sc.requestConnection endpoint_id
        ⟨if !status.Ok then client.CancelEndpoint endpoint_id else client,
          status, [SCCall.requestConnection endpoint_id]⟩ }

/-- `ServiceControllerRouter::AcceptConnection`
(service_controller_router.cc lines 218 to 244): connected guard, then
already-answered guard, then delegation; the payload listener the source
moves into the controller carries no router state and is not modelled. -/
def AcceptConnection (sc : ServiceController) (endpoint_id : String) : RoutedOp :=
  { sync := fun client => client
    body := fun client =>
      if client.IsConnectedToEndpoint endpoint_id then
        ⟨client, Status.kAlreadyConnectedToEndpoint, []⟩
      else if client.HasLocalEndpointResponded endpoint_id then
        ⟨client, Status.kOutOfOrderApiCall, []⟩
      else
        ⟨client, sc.acceptConnection endpoint_id, [SCCall.acceptConnection endpoint_id]⟩ }

/-- `ServiceControllerRouter::RejectConnection`
(service_controller_router.cc lines 246 to 272): the calling thread
cancels the endpoint before enqueueing; the body applies the same two
guards as `AcceptConnection` and then delegates. -/
def RejectConnection (sc : ServiceController) (endpoint_id : String) : RoutedOp :=
  { sync := fun client => client.CancelEndpoint endpoint_id
    body := fun client =>
      if client.IsConnectedToEndpoint endpoint_id then
        ⟨client, Status.kAlreadyConnectedToEndpoint, []⟩
      else if client.HasLocalEndpointResponded endpoint_id then
        ⟨client, Status.kOutOfOrderApiCall, []⟩
      else
        ⟨client, sc.rejectConnection endpoint_id, [SCCall.rejectConnection endpoint_id]⟩ }

/-- `ServiceControllerRouter::InitiateBandwidthUpgrade`
(service_controller_router.cc lines 274 to 291). -/
def InitiateBandwidthUpgrade (endpoint_id : String) : RoutedOp :=
  { sync := fun client => client
    body := fun client =>
      if !client.IsConnectedToEndpoint endpoint_id then
        ⟨client, Status.kOutOfOrderApiCall, []⟩
      else
        ⟨client, Status.kSuccess, [SCCall.initiateBandwidthUpgrade endpoint_id]⟩ }

/-- `ServiceControllerRouter::SendPayload`
(service_controller_router.cc lines 293 to 322): the body fails with
endpoint-unknown unless at least one target endpoint is connected,
otherwise hands the payload to the controller once and answers success. -/
def SendPayload (endpoint_ids : List String) (payload : Payload) : RoutedOp :=
  { sync := fun client => client
    body := fun client =>
      if !ClientHasConnectionToAtLeastOneEndpoint client endpoint_ids then
        ⟨client, Status.kEndpointUnknown, []⟩
      else
        ⟨client, Status.kSuccess, [SCCall.sendPayload endpoint_ids payload]⟩ }

/-- `ServiceControllerRouter::CancelPayload`
(service_controller_router.cc lines 324 to 332): straight delegation. -/
def CancelPayload (sc : ServiceController) (payload_id : Nat) : RoutedOp :=
  { sync := fun client => client
    body := fun client =>
      ⟨client, sc.cancelPayload payload_id, [SCCall.cancelPayload payload_id]⟩ }

/-- `ServiceControllerRouter::DisconnectFromEndpoint`
(service_controller_router.cc lines 334 to 353): the calling thread
cancels the endpoint before enqueueing; the body requires a pending or
connected relation, then disconnects and answers success. -/
def DisconnectFromEndpoint (endpoint_id : String) : RoutedOp :=
  { sync := fun client => client.CancelEndpoint endpoint_id
    body := fun client =>
      if !client.IsConnectedToEndpoint endpoint_id &&
          !client.HasPendingConnectionToEndpoint endpoint_id then
        ⟨client, Status.kOutOfOrderApiCall, []⟩
      else
        ⟨client, Status.kSuccess, [SCCall.disconnectFromEndpoint endpoint_id]⟩ }

/-- `ServiceControllerRouter::FinishClientSession`
(service_controller_router.cc lines 675 to 692): disconnect every pending
endpoint, disconnect every connected endpoint, stop advertising, stop
discovery, shut down the bandwidth-upgrade executors, and finally reset
the client state. -/
def FinishClientSession (client : ClientProxy) : ClientProxy × List SCCall :=
  let pendingCalls :=
    (client.GetPendingConnectedEndpoints).map SCCall.disconnectFromEndpoint
  let connectedCalls :=
    (client.GetConnectedEndpoints).map SCCall.disconnectFromEndpoint
  ( client.Reset,
    pendingCalls ++ connectedCalls ++
      [SCCall.stopAdvertising, SCCall.stopDiscovery, SCCall.shutdownBwuManagerExecutors] )

/-- `ServiceControllerRouter::StopAllEndpoints`
(service_controller_router.cc lines 633 to 647): the calling thread
cancels every endpoint before enqueueing; the body performs the full
session teardown and answers success. -/
def StopAllEndpoints : RoutedOp :=
  { sync := fun client => client.CancelAllEndpoints
    body := fun client =>
      let p := FinishClientSession client
      ⟨p.1, Status.kSuccess, p.2⟩ }

/-- Modelled from the spec: a v3 device handle carries the endpoint id it
converts to (section 4.4; the `NearbyDevice` class is external). -/
structure NearbyDevice where
  endpoint_id : String
deriving DecidableEq, Repr

/-- Modelled from the spec: `NearbyDevice::GetEndpointId`. -/
def NearbyDevice.GetEndpointId (d : NearbyDevice) : String := d.endpoint_id

/-- `ServiceControllerRouter::RequestConnectionV3`
(service_controller_router.cc lines 368 to 458): same synchronous flag
registration and same body guards, delegation and failure cancellation as
`RequestConnection` at the endpoint id of the device; the listener
translation the body builds in between touches no session state and is
not modelled. -/
def RequestConnectionV3 (sc : ServiceController) (remote_device : NearbyDevice) : RoutedOp :=
  { sync := fun client => client.AddCancellationFlag remote_device.GetEndpointId
    body := fun client =>
      if client.HasPendingConnectionToEndpoint remote_device.GetEndpointId ||
          client.IsConnectedToEndpoint remote_device.GetEndpointId then
        ⟨client, Status.kAlreadyConnectedToEndpoint, []⟩
      else
        let status := sc.requestConnection remote_device.GetEndpointId
        ⟨if !status.Ok then client.CancelEndpoint remote_device.GetEndpointId else client,
          status, [SCCall.requestConnection remote_device.GetEndpointId]⟩ }

/-- `ServiceControllerRouter::AcceptConnectionV3`
(service_controller_router.cc lines 460 to 499): same guards and
delegation as `AcceptConnection`; the payload-listener translation
touches no session state and is not modelled. -/
def AcceptConnectionV3 (sc : ServiceController) (remote_device : NearbyDevice) : RoutedOp :=
  { sync := fun client => client
    body := fun client =>
      if client.IsConnectedToEndpoint remote_device.GetEndpointId then
        ⟨client, Status.kAlreadyConnectedToEndpoint, []⟩
      else if client.HasLocalEndpointResponded remote_device.GetEndpointId then
        ⟨client, Status.kOutOfOrderApiCall, []⟩
      else
        ⟨client, sc.acceptConnection remote_device.GetEndpointId,
          [SCCall.acceptConnection remote_device.GetEndpointId]⟩ }

/-- `ServiceControllerRouter::RejectConnectionV3`
(service_controller_router.cc lines 501 to 527). -/
def RejectConnectionV3 (sc : ServiceController) (remote_device : NearbyDevice) : RoutedOp :=
  { sync := fun client => client.CancelEndpoint remote_device.GetEndpointId
    body := fun client =>
      if client.IsConnectedToEndpoint remote_device.GetEndpointId then
        ⟨client, Status.kAlreadyConnectedToEndpoint, []⟩
      else if client.HasLocalEndpointResponded remote_device.GetEndpointId then
        ⟨client, Status.kOutOfOrderApiCall, []⟩
      else
        ⟨client, sc.rejectConnection remote_device.GetEndpointId,
          [SCCall.rejectConnection remote_device.GetEndpointId]⟩ }

/-- `ServiceControllerRouter::SendPayloadV3`
(service_controller_router.cc lines 548 to 578): the body guards on the
single recipient being connected and hands the payload to the controller
with the singleton target list. -/
def SendPayloadV3 (recipient_device : NearbyDevice) (payload : Payload) : RoutedOp :=
  { sync := fun client => client
    body := fun client =>
      if !client.IsConnectedToEndpoint recipient_device.GetEndpointId then
        ⟨client, Status.kEndpointUnknown, []⟩
      else
        ⟨client, Status.kSuccess,
          [SCCall.sendPayload [recipient_device.GetEndpointId] payload]⟩ }

/-- `ServiceControllerRouter::CancelPayloadV3`
(service_controller_router.cc lines 580 to 588): straight delegation; the
recipient device is ignored by the source body. -/
def CancelPayloadV3 (sc : ServiceController) (_recipient_device : NearbyDevice)
    (payload_id : Nat) : RoutedOp :=
  { sync := fun client => client
    body := fun client =>
      ⟨client, sc.cancelPayload payload_id, [SCCall.cancelPayload payload_id]⟩ }

/-- `ServiceControllerRouter::DisconnectFromDeviceV3`
(service_controller_router.cc lines 590 to 609). -/
def DisconnectFromDeviceV3 (remote_device : NearbyDevice) : RoutedOp :=
  { sync := fun client => client.CancelEndpoint remote_device.GetEndpointId
    body := fun client =>
      if !client.IsConnectedToEndpoint remote_device.GetEndpointId &&
          !client.HasPendingConnectionToEndpoint remote_device.GetEndpointId then
        ⟨client, Status.kOutOfOrderApiCall, []⟩
      else
        ⟨client, Status.kSuccess,
          [SCCall.disconnectFromEndpoint remote_device.GetEndpointId]⟩ }

/-! Helper lemmas about the cancellation-flag store. -/

theorem findFlag_raiseFlag (l : List (String × Bool)) (e : String)
    (h : (findFlag l e).isSome = true) : findFlag (raiseFlag l e) e = some true := by
  induction l with
  | nil => simp [findFlag] at h
  | cons p rest ih =>
    by_cases hk : (p.1 == e) = true
    · simp [raiseFlag, findFlag, hk]
    · simp only [findFlag, hk, if_neg, Bool.not_eq_true] at h
      simpa [raiseFlag, findFlag, hk] using ih (by simpa [findFlag, hk] using h)

theorem findFlag_raiseAllFlags (l : List (String × Bool)) (e : String)
    (h : (findFlag l e).isSome = true) : findFlag (raiseAllFlags l) e = some true := by
  induction l with
  | nil => simp [findFlag] at h
  | cons p rest ih =>
    by_cases hk : (p.1 == e) = true
    · simp [raiseAllFlags, findFlag, hk]
    · simpa [raiseAllFlags, findFlag, hk] using
        ih (by simpa [findFlag, hk] using h)

theorem hasFlag_after_add (c : ClientProxy) (e : String) :
    (c.AddCancellationFlag e).HasCancellationFlag e = true := by
  unfold ClientProxy.AddCancellationFlag ClientProxy.HasCancellationFlag
  by_cases h : (findFlag c.cancelFlags e).isSome = true
  · simp [h]
  · simp [h, findFlag]

theorem cancelled_after_cancel (c : ClientProxy) (e : String)
    (h : c.HasCancellationFlag e = true) :
    (c.CancelEndpoint e).IsEndpointCancelled e = true := by
  unfold ClientProxy.CancelEndpoint ClientProxy.IsEndpointCancelled
  simp [findFlag_raiseFlag c.cancelFlags e h]

theorem cancelled_after_cancel_all (c : ClientProxy) (e : String)
    (h : c.HasCancellationFlag e = true) :
    c.CancelAllEndpoints.IsEndpointCancelled e = true := by
  unfold ClientProxy.CancelAllEndpoints ClientProxy.IsEndpointCancelled
  simp [findFlag_raiseAllFlags c.cancelFlags e h]

/-! Concrete fixtures used by the witnesses. -/

/-- Oracle whose every status-returning controller call fails. -/
def scErr : ServiceController :=
  { requestConnection := fun _ => Status.kError
    acceptConnection := fun _ => Status.kError
    rejectConnection := fun _ => Status.kError
    cancelPayload := fun _ => Status.kError }

/-- Oracle whose every status-returning controller call succeeds. -/
def scOk : ServiceController :=
  { requestConnection := fun _ => Status.kSuccess
    acceptConnection := fun _ => Status.kSuccess
    rejectConnection := fun _ => Status.kSuccess
    cancelPayload := fun _ => Status.kSuccess }

/-- A freshly created session: nothing advertised, discovered, related. -/
def cEmpty : ClientProxy :=
  { advertising := false, discovering := false, pendingEndpoints := []
    connectedEndpoints := [], responded := [], cancelFlags := [] }

/-- A session connected to endpoint AAAA. -/
def cConnected : ClientProxy :=
  { advertising := false, discovering := false, pendingEndpoints := []
    connectedEndpoints := ["AAAA"], responded := [], cancelFlags := [] }

/-- A session with a pending connection to endpoint AAAA that the local
side has already answered. -/
def cResponded : ClientProxy :=
  { advertising := false, discovering := false, pendingEndpoints := ["AAAA"]
    connectedEndpoints := [], responded := ["AAAA"], cancelFlags := [] }

/-- A session with unraised cancellation flags registered for endpoints
AAAA and BBBB. -/
def cFlags : ClientProxy :=
  { advertising := false, discovering := false, pendingEndpoints := []
    connectedEndpoints := [], responded := []
    cancelFlags := [("AAAA", false), ("BBBB", false)] }

/-- A session that is both advertising and discovering. -/
def cActive : ClientProxy :=
  { advertising := true, discovering := true, pendingEndpoints := []
    connectedEndpoints := [], responded := [], cancelFlags := [] }

/-- Claim C6: the quality classifier is a total, deterministic,
side-effect-free function (it is a Lean function on the whole `Medium`
type) whose value matches the fixed table: unspecified and USB map to
unknown; BLE and NFC map to low; Bluetooth-Classic and BLE-L2CAP map to
medium; Wi-Fi Hotspot, Wi-Fi LAN, Wi-Fi Aware, Wi-Fi Direct and WebRTC
map to high; every other value maps to unknown. -/
theorem getMediumQuality_table :
    GetMediumQuality Medium.UNKNOWN_MEDIUM = Quality.kUnknown ∧
    GetMediumQuality Medium.USB = Quality.kUnknown ∧
    GetMediumQuality Medium.BLE = Quality.kLow ∧
    GetMediumQuality Medium.NFC = Quality.kLow ∧
    GetMediumQuality Medium.BLUETOOTH = Quality.kMedium ∧
    GetMediumQuality Medium.BLE_L2CAP = Quality.kMedium ∧
    GetMediumQuality Medium.WIFI_HOTSPOT = Quality.kHigh ∧
    GetMediumQuality Medium.WIFI_LAN = Quality.kHigh ∧
    GetMediumQuality Medium.WIFI_AWARE = Quality.kHigh ∧
    GetMediumQuality Medium.WIFI_DIRECT = Quality.kHigh ∧
    GetMediumQuality Medium.WEB_RTC = Quality.kHigh ∧
    ∀ m : Medium,
      m ∉ ([Medium.UNKNOWN_MEDIUM, Medium.USB, Medium.BLE, Medium.NFC,
            Medium.BLUETOOTH, Medium.BLE_L2CAP, Medium.WIFI_HOTSPOT,
            Medium.WIFI_LAN, Medium.WIFI_AWARE, Medium.WIFI_DIRECT,
            Medium.WEB_RTC] : List Medium) →
        GetMediumQuality m = Quality.kUnknown := by
  refine ⟨rfl, rfl, rfl, rfl, rfl, rfl, rfl, rfl, rfl, rfl, rfl, ?_⟩
  intro m hm
  cases m <;> revert hm <;> decide

/-- Witness for C6: the two media outside the explicit table both
classify as unknown. -/
theorem getMediumQuality_table_witness :
    GetMediumQuality Medium.MDNS = Quality.kUnknown ∧
    GetMediumQuality Medium.AWDL = Quality.kUnknown := by
  exact ⟨getMediumQuality_table.2.2.2.2.2.2.2.2.2.2.2 Medium.MDNS (by decide),
    getMediumQuality_table.2.2.2.2.2.2.2.2.2.2.2 Medium.AWDL (by decide)⟩

/-- Claim C10: with an empty target list the at-least-one-connected check
is vacuously false, so SendPayload answers EndpointUnknown and never
calls the Transport Controller. -/
theorem sendPayload_empty_targets (c : ClientProxy) (p : Payload) :
    ClientHasConnectionToAtLeastOneEndpoint c [] = false ∧
    (SendPayload [] p).body c = ⟨c, Status.kEndpointUnknown, []⟩ :=
  ⟨rfl, rfl⟩

/-- Claim C4: the teardown run by StopAllEndpoints makes its Transport
Controller calls in exactly this order: disconnect every pending
endpoint, disconnect every connected endpoint, stop advertising, stop
discovery, release the bandwidth-upgrade execution resources; it then
resets the session to the initial state, after which the advertising,
discovering and every per-endpoint relation query report empty or
false. -/
theorem stopAllEndpoints_teardown (c : ClientProxy) :
    StopAllEndpoints.sync c = c.CancelAllEndpoints ∧
    (StopAllEndpoints.body c).status = Status.kSuccess ∧
    (StopAllEndpoints.body c).calls =
      (c.GetPendingConnectedEndpoints).map SCCall.disconnectFromEndpoint ++
        (c.GetConnectedEndpoints).map SCCall.disconnectFromEndpoint ++
        [SCCall.stopAdvertising, SCCall.stopDiscovery,
          SCCall.shutdownBwuManagerExecutors] ∧
    (StopAllEndpoints.body c).client = c.Reset ∧
    (StopAllEndpoints.body c).client.IsAdvertising = false ∧
    (StopAllEndpoints.body c).client.IsDiscovering = false ∧
    ∀ endpoint_id : String,
      (StopAllEndpoints.body c).client.IsConnectedToEndpoint endpoint_id = false ∧
      (StopAllEndpoints.body c).client.HasPendingConnectionToEndpoint endpoint_id = false ∧
      (StopAllEndpoints.body c).client.HasLocalEndpointResponded endpoint_id = false := by
  exact ⟨rfl, rfl, rfl, rfl, rfl, rfl, fun _ => ⟨rfl, rfl, rfl⟩⟩

/-- Claim C8: StopAdvertising and StopDiscovery always answer Success;
when the corresponding session flag is clear they make no Transport
Controller call, and when it is set they make exactly the controller stop
call and still answer Success. -/
theorem stopAdvertising_stopDiscovery_success (c : ClientProxy) :
    (StopAdvertising.body c).status = Status.kSuccess ∧
    (StopDiscovery.body c).status = Status.kSuccess ∧
    (c.IsAdvertising = false → StopAdvertising.body c = ⟨c, Status.kSuccess, []⟩) ∧
    (c.IsAdvertising = true →
      StopAdvertising.body c = ⟨c, Status.kSuccess, [SCCall.stopAdvertising]⟩) ∧
    (c.IsDiscovering = false → StopDiscovery.body c = ⟨c, Status.kSuccess, []⟩) ∧
    (c.IsDiscovering = true →
      StopDiscovery.body c = ⟨c, Status.kSuccess, [SCCall.stopDiscovery]⟩) := by
  by_cases ha : c.IsAdvertising = true <;> by_cases hd : c.IsDiscovering = true <;>
    simp [StopAdvertising, StopDiscovery, ha, hd]

/-- Witness for C8 at concrete sessions on both sides of each flag. -/
theorem stopAdvertising_stopDiscovery_success_witness :
    StopAdvertising.body cActive = ⟨cActive, Status.kSuccess, [SCCall.stopAdvertising]⟩ ∧
    StopDiscovery.body cActive = ⟨cActive, Status.kSuccess, [SCCall.stopDiscovery]⟩ ∧
    StopAdvertising.body cEmpty = ⟨cEmpty, Status.kSuccess, []⟩ ∧
    StopDiscovery.body cEmpty = ⟨cEmpty, Status.kSuccess, []⟩ := by
  refine ⟨(stopAdvertising_stopDiscovery_success cActive).2.2.2.1 (by decide),
    (stopAdvertising_stopDiscovery_success cActive).2.2.2.2.2 (by decide),
    (stopAdvertising_stopDiscovery_success cEmpty).2.2.1 (by decide),
    (stopAdvertising_stopDiscovery_success cEmpty).2.2.2.2.1 (by decide)⟩

/-- Claim C9: each device-centric V3 operation has the same synchronous
phase and the same queued body - hence the same status, session
mutations and Transport Controller calls - as the endpoint-id-centric
operation applied to the endpoint id of the device; the adapter adds no
guards or state beyond the listener and payload translation. -/
theorem v3_adapter_equivalence (sc : ServiceController) (d : NearbyDevice)
    (c : ClientProxy) (p : Payload) (pid : Nat) :
    ((RequestConnectionV3 sc d).sync c = (RequestConnection sc d.GetEndpointId).sync c) ∧
    ((RequestConnectionV3 sc d).body c = (RequestConnection sc d.GetEndpointId).body c) ∧
    ((AcceptConnectionV3 sc d).sync c = (AcceptConnection sc d.GetEndpointId).sync c) ∧
    ((AcceptConnectionV3 sc d).body c = (AcceptConnection sc d.GetEndpointId).body c) ∧
    ((RejectConnectionV3 sc d).sync c = (RejectConnection sc d.GetEndpointId).sync c) ∧
    ((RejectConnectionV3 sc d).body c = (RejectConnection sc d.GetEndpointId).body c) ∧
    ((DisconnectFromDeviceV3 d).sync c = (DisconnectFromEndpoint d.GetEndpointId).sync c) ∧
    ((DisconnectFromDeviceV3 d).body c = (DisconnectFromEndpoint d.GetEndpointId).body c) ∧
    ((SendPayloadV3 d p).sync c = (SendPayload [d.GetEndpointId] p).sync c) ∧
    ((SendPayloadV3 d p).body c = (SendPayload [d.GetEndpointId] p).body c) ∧
    ((CancelPayloadV3 sc d pid).sync c = (CancelPayload sc pid).sync c) ∧
    ((CancelPayloadV3 sc d pid).body c = (CancelPayload sc pid).body c) := by
  refine ⟨rfl, rfl, rfl, rfl, rfl, rfl, rfl, rfl, rfl, ?_, rfl, rfl⟩
  by_cases h : c.IsConnectedToEndpoint d.GetEndpointId = true <;>
    simp [SendPayloadV3, SendPayload, ClientHasConnectionToAtLeastOneEndpoint, h]

/-- Claim C7: SendPayload answers EndpointUnknown and makes no Transport
Controller call unless at least one target endpoint is connected; with a
connected target it hands the payload to the controller exactly once and
answers Success.  The boolean scan agrees with the existential reading of
at least one connected target. -/
theorem sendPayload_requires_connected_target (c : ClientProxy)
    (endpoint_ids : List String) (p : Payload) :
    (ClientHasConnectionToAtLeastOneEndpoint c endpoint_ids = true ↔
      ∃ e ∈ endpoint_ids, c.IsConnectedToEndpoint e = true) ∧
    ((¬ ∃ e ∈ endpoint_ids, c.IsConnectedToEndpoint e = true) →
      (SendPayload endpoint_ids p).body c = ⟨c, Status.kEndpointUnknown, []⟩) ∧
    ((∃ e ∈ endpoint_ids, c.IsConnectedToEndpoint e = true) →
      (SendPayload endpoint_ids p).body c =
        ⟨c, Status.kSuccess, [SCCall.sendPayload endpoint_ids p]⟩) := by
  have hiff : ClientHasConnectionToAtLeastOneEndpoint c endpoint_ids = true ↔
      ∃ e ∈ endpoint_ids, c.IsConnectedToEndpoint e = true := by
    simp [ClientHasConnectionToAtLeastOneEndpoint, List.any_eq_true]
  refine ⟨hiff, ?_, ?_⟩
  · intro h
    have hb : ClientHasConnectionToAtLeastOneEndpoint c endpoint_ids = false := by
      cases hc : ClientHasConnectionToAtLeastOneEndpoint c endpoint_ids
      · rfl
      · exact absurd (hiff.mp hc) h
    simp [SendPayload, hb]
  · intro h
    simp [SendPayload, hiff.mpr h]

/-- Witness for C7: a connected target makes the payload flow once, an
unconnected target answers EndpointUnknown with no controller call. -/
theorem sendPayload_requires_connected_target_witness :
    (SendPayload ["AAAA"] 7).body cConnected =
      ⟨cConnected, Status.kSuccess, [SCCall.sendPayload ["AAAA"] 7]⟩ ∧
    (SendPayload ["BBBB"] 7).body cConnected =
      ⟨cConnected, Status.kEndpointUnknown, []⟩ := by
  exact ⟨(sendPayload_requires_connected_target cConnected ["AAAA"] 7).2.2 (by decide),
    (sendPayload_requires_connected_target cConnected ["BBBB"] 7).2.1 (by decide)⟩

/-- Claim C2: AcceptConnection and RejectConnection apply the same two
guards in order: AlreadyConnectedToEndpoint when the endpoint is
connected, otherwise OutOfOrderApiCall when the local side has already
answered this endpoint, otherwise they delegate and return the Transport
Controller status unchanged. -/
theorem acceptConnection_rejectConnection_guards (sc : ServiceController)
    (c : ClientProxy) (endpoint_id : String) :
    (c.IsConnectedToEndpoint endpoint_id = true →
      (AcceptConnection sc endpoint_id).body c =
        ⟨c, Status.kAlreadyConnectedToEndpoint, []⟩ ∧
      (RejectConnection sc endpoint_id).body c =
        ⟨c, Status.kAlreadyConnectedToEndpoint, []⟩) ∧
    (c.IsConnectedToEndpoint endpoint_id = false →
      c.HasLocalEndpointResponded endpoint_id = true →
      (AcceptConnection sc endpoint_id).body c = ⟨c, Status.kOutOfOrderApiCall, []⟩ ∧
      (RejectConnection sc endpoint_id).body c = ⟨c, Status.kOutOfOrderApiCall, []⟩) ∧
    (c.IsConnectedToEndpoint endpoint_id = false →
      c.HasLocalEndpointResponded endpoint_id = false →
      (AcceptConnection sc endpoint_id).body c =
        ⟨c, sc.acceptConnection endpoint_id, [SCCall.acceptConnection endpoint_id]⟩ ∧
      (RejectConnection sc endpoint_id).body c =
        ⟨c, sc.rejectConnection endpoint_id, [SCCall.rejectConnection endpoint_id]⟩) := by
  refine ⟨fun h1 => ?_, fun h1 h2 => ?_, fun h1 h2 => ?_⟩ <;>
    constructor <;> simp [AcceptConnection, RejectConnection, *]

/-- Witness for C2 at the three guard outcomes on concrete sessions. -/
theorem acceptConnection_rejectConnection_guards_witness :
    (AcceptConnection scErr "AAAA").body cConnected =
      ⟨cConnected, Status.kAlreadyConnectedToEndpoint, []⟩ ∧
    (RejectConnection scErr "AAAA").body cConnected =
      ⟨cConnected, Status.kAlreadyConnectedToEndpoint, []⟩ ∧
    (AcceptConnection scErr "AAAA").body cResponded =
      ⟨cResponded, Status.kOutOfOrderApiCall, []⟩ ∧
    (RejectConnection scErr "AAAA").body cResponded =
      ⟨cResponded, Status.kOutOfOrderApiCall, []⟩ ∧
    (AcceptConnection scErr "AAAA").body cEmpty =
      ⟨cEmpty, Status.kError, [SCCall.acceptConnection "AAAA"]⟩ ∧
    (RejectConnection scErr "AAAA").body cEmpty =
      ⟨cEmpty, Status.kError, [SCCall.rejectConnection "AAAA"]⟩ := by
  have h1 := (acceptConnection_rejectConnection_guards scErr cConnected "AAAA").1 (by decide)
  have h2 := (acceptConnection_rejectConnection_guards scErr cResponded "AAAA").2.1
    (by decide) (by decide)
  have h3 := (acceptConnection_rejectConnection_guards scErr cEmpty "AAAA").2.2
    (by decide) (by decide)
  exact ⟨h1.1, h1.2, h2.1, h2.2, h3.1, h3.2⟩

/-- Claim C3: InjectEndpoint checks, in order, that the medium is
Bluetooth-Classic with a six-byte peer address, that the endpoint id has
four bytes, that the endpoint info is non-empty and at most 131 bytes,
and that the session is discovering; the first failing check answers
Error for the first three and OutOfOrderApiCall for the last, without
delegating, and when all four pass it delegates and answers Success. -/
theorem injectEndpoint_validation (c : ClientProxy) (service_id : String)
    (m : OutOfBandConnectionMetadata) :
    (¬(m.medium = Medium.BLUETOOTH ∧
        m.remote_bluetooth_mac_address.length = kMacAddressLength) →
      (InjectEndpoint service_id m).body c = ⟨c, Status.kError, []⟩) ∧
    (m.medium = Medium.BLUETOOTH →
      m.remote_bluetooth_mac_address.length = kMacAddressLength →
      m.endpoint_id.length ≠ kEndpointIdLength →
      (InjectEndpoint service_id m).body c = ⟨c, Status.kError, []⟩) ∧
    (m.medium = Medium.BLUETOOTH →
      m.remote_bluetooth_mac_address.length = kMacAddressLength →
      m.endpoint_id.length = kEndpointIdLength →
      (m.endpoint_info = [] ∨ m.endpoint_info.length > kMaxEndpointInfoLength) →
      (InjectEndpoint service_id m).body c = ⟨c, Status.kError, []⟩) ∧
    (m.medium = Medium.BLUETOOTH →
      m.remote_bluetooth_mac_address.length = kMacAddressLength →
      m.endpoint_id.length = kEndpointIdLength →
      m.endpoint_info ≠ [] → m.endpoint_info.length ≤ kMaxEndpointInfoLength →
      c.IsDiscovering = false →
      (InjectEndpoint service_id m).body c = ⟨c, Status.kOutOfOrderApiCall, []⟩) ∧
    (m.medium = Medium.BLUETOOTH →
      m.remote_bluetooth_mac_address.length = kMacAddressLength →
      m.endpoint_id.length = kEndpointIdLength →
      m.endpoint_info ≠ [] → m.endpoint_info.length ≤ kMaxEndpointInfoLength →
      c.IsDiscovering = true →
      (InjectEndpoint service_id m).body c =
        ⟨c, Status.kSuccess, [SCCall.injectEndpoint service_id]⟩) := by
  refine ⟨?_, ?_, ?_, ?_, ?_⟩
  · intro h
    have hcond : m.medium ≠ Medium.BLUETOOTH ∨
        m.remote_bluetooth_mac_address.length ≠ kMacAddressLength := by
      by_contra hc
      push_neg at hc
      exact h ⟨hc.1, hc.2⟩
    simp [InjectEndpoint, hcond]
  · intro h1 h2 h3
    simp [InjectEndpoint, h1, h2, h3]
  · intro h1 h2 h3 h4
    rcases h4 with h4 | h4 <;> simp [InjectEndpoint, h1, h2, h3, h4]
  · intro h1 h2 h3 h4 h5 h6
    have h5x : ¬ m.endpoint_info.length > kMaxEndpointInfoLength := not_lt.mpr h5
    simp [InjectEndpoint, h1, h2, h3, h4, h5x, h6]
  · intro h1 h2 h3 h4 h5 h6
    have h5x : ¬ m.endpoint_info.length > kMaxEndpointInfoLength := not_lt.mpr h5
    simp [InjectEndpoint, h1, h2, h3, h4, h5x, h6]

/-- Injection metadata with a five-byte peer address. -/
def metaShortMac : OutOfBandConnectionMetadata :=
  { medium := Medium.BLUETOOTH, remote_bluetooth_mac_address := [1, 2, 3, 4, 5]
    endpoint_id := "ABCD", endpoint_info := [9] }

/-- Injection metadata with a valid address and endpoint id but empty
endpoint info. -/
def metaEmptyInfo : OutOfBandConnectionMetadata :=
  { medium := Medium.BLUETOOTH, remote_bluetooth_mac_address := [1, 2, 3, 4, 5, 6]
    endpoint_id := "ABCD", endpoint_info := [] }

/-- Fully valid injection metadata. -/
def metaValid : OutOfBandConnectionMetadata :=
  { medium := Medium.BLUETOOTH, remote_bluetooth_mac_address := [1, 2, 3, 4, 5, 6]
    endpoint_id := "ABCD", endpoint_info := [9, 9] }

/-- Witness for C3 on the four scenarios of the spec test vector: short
address, empty info, valid but not discovering, valid and discovering. -/
theorem injectEndpoint_validation_witness :
    (InjectEndpoint "svc" metaShortMac).body cActive = ⟨cActive, Status.kError, []⟩ ∧
    (InjectEndpoint "svc" metaEmptyInfo).body cActive = ⟨cActive, Status.kError, []⟩ ∧
    (InjectEndpoint "svc" metaValid).body cEmpty =
      ⟨cEmpty, Status.kOutOfOrderApiCall, []⟩ ∧
    (InjectEndpoint "svc" metaValid).body cActive =
      ⟨cActive, Status.kSuccess, [SCCall.injectEndpoint "svc"]⟩ := by
  refine ⟨(injectEndpoint_validation cActive "svc" metaShortMac).1 (by decide),
    (injectEndpoint_validation cActive "svc" metaEmptyInfo).2.2.1
      (by decide) (by decide) (by decide) (by decide),
    (injectEndpoint_validation cEmpty "svc" metaValid).2.2.2.1
      (by decide) (by decide) (by decide) (by decide) (by decide) (by decide),
    (injectEndpoint_validation cActive "svc" metaValid).2.2.2.2
      (by decide) (by decide) (by decide) (by decide) (by decide) (by decide)⟩

/-- Claim C5: RejectConnection, DisconnectFromEndpoint and
StopAllEndpoints raise the cancellation flags of the targeted endpoints
in their synchronous phase, on the calling thread, before the body is
enqueued; the body of any operation runs against the session state after
that phase, so an already-queued body that later runs observes the
raised flag. -/
theorem cancellation_raised_before_enqueue (sc : ServiceController)
    (c : ClientProxy) (endpoint_id : String) :
    ((RejectConnection sc endpoint_id).sync c = c.CancelEndpoint endpoint_id) ∧
    ((DisconnectFromEndpoint endpoint_id).sync c = c.CancelEndpoint endpoint_id) ∧
    (StopAllEndpoints.sync c = c.CancelAllEndpoints) ∧
    (c.HasCancellationFlag endpoint_id = true →
      ((RejectConnection sc endpoint_id).sync c).IsEndpointCancelled endpoint_id = true ∧
      ((DisconnectFromEndpoint endpoint_id).sync c).IsEndpointCancelled endpoint_id = true) ∧
    (∀ e, c.HasCancellationFlag e = true →
      (StopAllEndpoints.sync c).IsEndpointCancelled e = true) ∧
    ((RejectConnection sc endpoint_id).run c =
      (RejectConnection sc endpoint_id).body ((RejectConnection sc endpoint_id).sync c)) ∧
    ((DisconnectFromEndpoint endpoint_id).run c =
      (DisconnectFromEndpoint endpoint_id).body
        ((DisconnectFromEndpoint endpoint_id).sync c)) ∧
    (StopAllEndpoints.run c = StopAllEndpoints.body (StopAllEndpoints.sync c)) := by
  refine ⟨rfl, rfl, rfl, fun h => ⟨?_, ?_⟩, fun e he => ?_, rfl, rfl, rfl⟩
  · exact cancelled_after_cancel c endpoint_id h
  · exact cancelled_after_cancel c endpoint_id h
  · exact cancelled_after_cancel_all c e he

/-- Witness for C5 on a session with registered flags for AAAA and
BBBB. -/
theorem cancellation_raised_before_enqueue_witness :
    ((RejectConnection scOk "AAAA").sync cFlags).IsEndpointCancelled "AAAA" = true ∧
    ((DisconnectFromEndpoint "AAAA").sync cFlags).IsEndpointCancelled "AAAA" = true ∧
    (StopAllEndpoints.sync cFlags).IsEndpointCancelled "BBBB" = true := by
  have h := cancellation_raised_before_enqueue scOk cFlags "AAAA"
  exact ⟨(h.2.2.2.1 (by decide)).1, (h.2.2.2.1 (by decide)).2,
    h.2.2.2.2.1 "BBBB" (by decide)⟩

/-- Claim C1 as amended: RequestConnection registers a cancellation flag
for the endpoint synchronously, before the body is queued; the body
answers AlreadyConnectedToEndpoint when the endpoint has a pending or
connected relation, otherwise delegates and returns the Transport
Controller status; and whenever the delegation returns a non-success
status, the endpoint is left with no pending or connected relation and
the just-registered cancellation flag is raised (the endpoint is
cancelled) rather than cleared. -/
theorem requestConnection_behaviour (sc : ServiceController)
    (c : ClientProxy) (endpoint_id : String) :
    ((RequestConnection sc endpoint_id).sync c = c.AddCancellationFlag endpoint_id) ∧
    (((RequestConnection sc endpoint_id).sync c).HasCancellationFlag endpoint_id = true) ∧
    ((RequestConnection sc endpoint_id).run c =
      (RequestConnection sc endpoint_id).body ((RequestConnection sc endpoint_id).sync c)) ∧
    ((c.HasPendingConnectionToEndpoint endpoint_id = true ∨
        c.IsConnectedToEndpoint endpoint_id = true) →
      (RequestConnection sc endpoint_id).body c =
        ⟨c, Status.kAlreadyConnectedToEndpoint, []⟩) ∧
    (c.HasPendingConnectionToEndpoint endpoint_id = false →
      c.IsConnectedToEndpoint endpoint_id = false →
      ((RequestConnection sc endpoint_id).body c).status = sc.requestConnection endpoint_id ∧
      ((RequestConnection sc endpoint_id).body c).calls =
        [SCCall.requestConnection endpoint_id] ∧
      (sc.requestConnection endpoint_id = Status.kSuccess →
        ((RequestConnection sc endpoint_id).body c).client = c) ∧
      (sc.requestConnection endpoint_id ≠ Status.kSuccess →
        ((RequestConnection sc endpoint_id).body c).client = c.CancelEndpoint endpoint_id ∧
        ((RequestConnection sc endpoint_id).body c).client.HasPendingConnectionToEndpoint
          endpoint_id = false ∧
        ((RequestConnection sc endpoint_id).body c).client.IsConnectedToEndpoint
          endpoint_id = false ∧
        (c.HasCancellationFlag endpoint_id = true →
          ((RequestConnection sc endpoint_id).body c).client.IsEndpointCancelled
            endpoint_id = true))) := by
  refine ⟨rfl, hasFlag_after_add c endpoint_id, rfl, ?_, ?_⟩
  · intro h
    rcases h with h | h <;> simp [RequestConnection, h]
  · intro h1 h2
    have hbody : (RequestConnection sc endpoint_id).body c =
        ⟨if !(sc.requestConnection endpoint_id).Ok then c.CancelEndpoint endpoint_id
          else c,
          sc.requestConnection endpoint_id, [SCCall.requestConnection endpoint_id]⟩ := by
      simp [RequestConnection, h1, h2]
    refine ⟨by rw [hbody], by rw [hbody], fun hs => ?_, fun hs => ?_⟩
    · rw [hbody]
      simp [Status.Ok, hs]
    · have hok : (!(sc.requestConnection endpoint_id).Ok) = true := by
        simp [Status.Ok, hs]
      have hclient : ((RequestConnection sc endpoint_id).body c).client =
          c.CancelEndpoint endpoint_id := by
        rw [hbody]
        simp [hok]
      refine ⟨hclient, ?_, ?_, fun hflag => ?_⟩
      · rw [hclient]
        simpa [ClientProxy.CancelEndpoint, ClientProxy.HasPendingConnectionToEndpoint]
          using h1
      · rw [hclient]
        simpa [ClientProxy.CancelEndpoint, ClientProxy.IsConnectedToEndpoint] using h2
      · rw [hclient]
        exact cancelled_after_cancel c endpoint_id hflag

/-- Witness for C1 (amended): the guard branch on a connected session,
and the failure branch on a session with a registered flag, where the
status passes through, the flag ends up raised, and a successful
delegation leaves the session untouched. -/
theorem requestConnection_behaviour_witness :
    (RequestConnection scErr "AAAA").body cConnected =
      ⟨cConnected, Status.kAlreadyConnectedToEndpoint, []⟩ ∧
    ((RequestConnection scErr "AAAA").body cFlags).status = Status.kError ∧
    ((RequestConnection scErr "AAAA").body cFlags).client.IsEndpointCancelled "AAAA" = true ∧
    ((RequestConnection scOk "AAAA").body cFlags).client = cFlags := by
  have hg := (requestConnection_behaviour scErr cConnected "AAAA").2.2.2.1
    (Or.inr (by decide))
  have hf := (requestConnection_behaviour scErr cFlags "AAAA").2.2.2.2
    (by decide) (by decide)
  have ho := (requestConnection_behaviour scOk cFlags "AAAA").2.2.2.2
    (by decide) (by decide)
  exact ⟨hg, hf.1, (hf.2.2.2 (by decide)).2.2.2 (by decide), ho.2.2.1 (by decide)⟩

/-- Counterexample to C1 as stated: on a fresh session, with the
Transport Controller failing the delegation, the full RequestConnection
run leaves the just-registered cancellation flag for the endpoint still
registered and raised - the flag is not cleared as the claim states (the
rollback cancels the endpoint, which raises the level-triggered flag). -/
theorem requestConnection_flag_not_cleared :
    ((RequestConnection scErr "ABCD").run cEmpty).status = Status.kError ∧
    ((RequestConnection scErr "ABCD").run cEmpty).client.HasCancellationFlag "ABCD" = true ∧
    ((RequestConnection scErr "ABCD").run cEmpty).client.IsEndpointCancelled "ABCD" = true ∧
    ((RequestConnection scErr "ABCD").run cEmpty).client.cancelFlags = [("ABCD", true)] := by
  refine ⟨rfl, rfl, rfl, rfl⟩

end Nearby
